import Mathlib

/-!
Shallow embedding of `src/switch_tower.py` (mwr666/filaswitch).

The repository's `SwitchTower` class generates G-code command sequences for a
purge tower used in multi-material 3D printing.  Each Python generator method
is embedded as a pure Lean function that returns the full list of emitted
(command, comment) pairs together with the successor state; the Python
object's mutable fields become the `SwitchTower` structure threaded through
the calls.

Numeric values are `ℚ` (the Python code uses floats, but every quantity the
properties below depend on is exact decimal arithmetic).  The two irrational
quantities produced by the code - the infill diagonal angle
`degrees(atan(y/x))` and the diagonal path length `sqrt(x^2 + y^2)` - are
represented symbolically by the `FVal` expression type, exactly mirroring the
expressions the source builds.

External collaborators that are not part of this repository's source under
`src/` (the `gcode` formatting module, `utils`, and the `Extruder`/`Layer`
views) are modelled opaquely from the spec, as noted on each definition.
-/

/-- Hardware selector string for the PEEK hot end (src line 10). -/
def PEEK : String := "PEEK-PRO-12"

/-- Hardware selector string for the PTFE hot end (src line 11). -/
def PTFE : String := "PTFE-PRO-12"

/-- Hardware selector string for the E3Dv6 hot end (src line 12). -/
def E3DV6 : String := "PTFE-EV6"

/-- The closed list of recognized hardware configurations (src line 14). -/
def HW_CONFIGS : List String := [PTFE, E3DV6, PEEK]

/-- Symbolic value of a Python float expression appearing in a generated
command.  Rational expressions are kept exact; the two irrational forms the
source produces are kept symbolic. -/
inductive FVal where
  /-- a plain rational value -/
  | q (v : ℚ)
  /-- the value `math.degrees(math.atan(y / x))` -/
  | atanDeg (y x : ℚ)
  /-- the value `360 - f` applied to an angle -/
  | revMinus (f : FVal)
  /-- the value `f + 180` applied to an angle -/
  | plus180 (f : FVal)
  /-- the value `gcode.calculate_path_length((0,0), (x,y))`, i.e. `sqrt(x^2 + y^2)` -/
  | dist (x y : ℚ)
deriving DecidableEq

/-- A G-code command emitted by the switch tower.  Each constructor records
one of the textual command shapes the source produces (the actual text
formatting lives in the external `gcode` module / `%` formatting, which is
out of scope per the spec). -/
inductive Cmd where
  /-- the tool change command `"T%s" % tool` -/
  | toolChange (tool : ℤ)
  /-- the command `gcode.gen_head_move(x, y, speed)` -/
  | headMove (x y speed : ℚ)
  /-- a z move `"G1 Z%.3f F..."` -/
  | zMove (z speed : ℚ)
  /-- the command `gcode.gen_direction_move(dir, length, speed, extruder, feed_rate,
  last_line)`; the extruder argument is represented by its tool index -/
  | dirMove (dir : FVal) (length : FVal) (speed : ℚ) (e : Option ℤ)
      (feedRate : Option ℚ) (lastLine : Bool)
  /-- a bare extruder move `"G1 E%.4f F%.1f"` -/
  | eMove (e speed : ℚ)
  /-- an x move with extrusion `"G1 X%.3f E%.4f F..."` -/
  | xeMove (x e speed : ℚ)
  /-- a bare y move `"G1 Y%s F%s"` -/
  | yMove (y speed : ℚ)
  /-- a dwell `"G4 P%s"` for the given milliseconds -/
  | dwell (ms : ℚ)
  /-- relative positioning, `"G91"` -/
  | relativeMode
  /-- absolute positioning, `"G90"` -/
  | absoluteMode
  /-- reset of the extruder position, `"G92 E0"` -/
  | resetE
deriving DecidableEq

/-- A command pair produced by an external `Extruder` emitter
(`get_prime_gcode` / `get_retract_gcode`), identified by the extruder's tool
index.  Modelled from the spec: the extruder views are external collaborators
supplying "prime/retract command emission". -/
inductive ExtCmd where
  | prime (tool : ℤ) (change : Option ℚ)
  | retract (tool : ℤ)
deriving DecidableEq

/-- One yielded `(cmd, comment)` pair of a generator.  A `marker` is a pair
whose command is `None` (a section delimiter); an `external` line is a pair
produced wholesale by an extruder emitter. -/
inductive Line where
  | gline (c : Cmd) (comment : Option String)
  | marker (comment : String)
  | external (c : ExtCmd)
deriving DecidableEq

/-- Modelled from the spec: the external `Extruder` view ("retract
length/speed, z-hop distance, feed-rate function, wipe length, tool index").
A z-hop distance or wipe length of `0` plays the role of Python falsiness in
`if extruder.z_hop:` / `if extruder.wipe:`. -/
structure Extruder where
  tool : ℤ
  retract : ℚ
  retract_speed : ℚ
  z_hop : ℚ
  wipe : ℚ
  feed_rate : ℚ
deriving DecidableEq

/-- Modelled from the spec: `extruder.get_feed_rate(multiplier=m)` scales the
extruder's feed rate. -/
def Extruder.get_feed_rate (e : Extruder) (multiplier : ℚ) : ℚ :=
  e.feed_rate * multiplier

/-- Modelled from the spec: the external retract command emitter. -/
def Extruder.get_retract_gcode (e : Extruder) : Line :=
  .external (.retract e.tool)

/-- Modelled from the spec: the external prime command emitter; `change` is
the keyword argument passed at the call site (or `none` when omitted). -/
def Extruder.get_prime_gcode (e : Extruder) (change : Option ℚ) : Line :=
  .external (.prime e.tool change)

/-- Modelled from the spec: the external `Layer` view ("layer height, current
z, and an accessor for outer-perimeter minimum speed and feed rate"). -/
structure Layer where
  height : ℚ
  z : ℚ
  outer_perimeter_speed : ℚ
  outer_perimeter_feed_rate : ℚ
deriving DecidableEq

/-- Modelled from the spec: `layer.get_outer_perimeter_rates()` returns the
pair (minimum speed, feed rate). -/
def Layer.get_outer_perimeter_rates (l : Layer) : ℚ × ℚ :=
  (l.outer_perimeter_speed, l.outer_perimeter_feed_rate)

namespace gcode

/-- Modelled from the spec: compass direction constants of the external
`gcode` module (degrees); only their identities matter to the claims. -/
def E : ℚ := 0

/-- North direction constant of the external `gcode` module. -/
def N : ℚ := 90

/-- West direction constant of the external `gcode` module. -/
def W : ℚ := 180

/-- South direction constant of the external `gcode` module. -/
def S : ℚ := 270

/-- North-east direction constant of the external `gcode` module. -/
def NE : ℚ := 45

/-- North-west direction constant of the external `gcode` module. -/
def NW : ℚ := 135

/-- South-east direction constant of the external `gcode` module. -/
def SE : ℚ := 315

/-- South-west direction constant of the external `gcode` module. -/
def SW : ℚ := 225

/-- Modelled from the spec: `gcode.gen_head_move(x, y, speed)` formats a head
travel move. -/
def gen_head_move (x y speed : ℚ) : Cmd := .headMove x y speed

/-- Modelled from the spec: `gcode.gen_direction_move(direction, length,
speed, extruder, feed_rate, last_line)` formats a directional move; the
extruder argument is represented by its tool index. -/
def gen_direction_move (dir length : FVal) (speed : ℚ) (e : Option ℤ)
    (feedRate : Option ℚ) (lastLine : Bool) : Cmd :=
  .dirMove dir length speed e feedRate lastLine

/-- Modelled from the spec: `gcode.calculate_path_length(p1, p2)` is the
Euclidean distance, kept symbolic. -/
def calculate_path_length (p1 p2 : ℚ × ℚ) : FVal :=
  .dist (p2.1 - p1.1) (p2.2 - p1.2)

end gcode

namespace utils

/-- Modelled from the spec: `utils.is_float_zero(v, decimals)` is not under
`src/`; per the spec a value is suppressed when "the magnitude ... is within a
small tolerance (3 decimal places) of zero". -/
def is_float_zero (v : ℚ) (decimals : ℕ) : Bool :=
  decide (|v| < 1 / 10 ^ decimals)

end utils

/-- The `SwitchTower` object state: fixed geometry, fixed position, the
precomputed hardware command tables, and the mutable runtime fields
(`last_tower_z`, `flipflop_purge`, `flipflop_infill`).  Mirrors the fields
set in `SwitchTower.__init__` (src lines 19-65). -/
structure SwitchTower where
  width : ℚ
  height : ℚ
  hw_config : String
  wall_width : ℚ
  wall_height : ℚ
  raft_width : ℚ
  raft_height : ℚ
  angle : ℚ
  start_pos_x : ℚ
  start_pos_y : ℚ
  raft_pos_x : ℚ
  raft_pos_y : ℚ
  last_tower_z : ℚ
  flipflop_purge : Bool
  flipflop_infill : Bool
  purge_line_length : ℚ
  purge_lines : ℤ
  prepurge_sign : ℤ
  pre_switch_lines : Bool → List Line
  post_switch_lines : List Line

namespace SwitchTower

/-- Method `init_pre_switch_gcode` (src lines 82-188): builds the pre-switch purge
tables for the flip (`True`) and flop (`False`) states, as a function of the
hardware config and tower width.  An unrecognized config leaves both tables
empty. -/
def init_pre_switch_gcode (hw_config : String) (width : ℚ) :
    List Line × List Line :=
  if hw_config = PEEK then
    let prepurge_feed_length := width * (4.5 / 50)
    ( [ .gline (.xeMove width prepurge_feed_length 6000) (some " purge trail"),
        .gline (.yMove 0.6 3000) (some " Y shift"),
        .gline (.xeMove (-width) prepurge_feed_length 6000) (some " purge trail"),
        .gline (.yMove 1.4 3000) (some " Y shift"),
        .gline (.xeMove width prepurge_feed_length 6000) (some " purge trail"),
        .gline (.yMove 0.6 3000) (some " Y shift"),
        .gline (.xeMove (-width) prepurge_feed_length 6000) (some " purge trail"),
        .gline (.yMove 1.4 3000) (some " Y shift"),
        .gline (.xeMove 10 (-20) 1500) (some " drip trail"),
        .gline (.eMove (-15) 1500) (some " 25mm/s reshaping"),
        .gline (.dwell 2000) (some " 2s cooling period"),
        .gline (.eMove (-95) 1500) (some " 25mm/s long retract") ],
      [ .gline (.xeMove width prepurge_feed_length 6000) (some " purge trail"),
        .gline (.yMove 1.4 3000) (some " Y shift"),
        .gline (.xeMove (-width) prepurge_feed_length 6000) (some " purge trail"),
        .gline (.yMove 0.6 3000) (some " Y shift"),
        .gline (.xeMove width prepurge_feed_length 6000) (some " purge trail"),
        .gline (.yMove 1.4 3000) (some " Y shift"),
        .gline (.xeMove (-width) prepurge_feed_length 6000) (some " purge trail"),
        .gline (.yMove 0.6 3000) (some " Y shift"),
        .gline (.xeMove 10 (-20) 1500) (some " drip trail"),
        .gline (.eMove (-15) 1500) (some " 25mm/s reshaping"),
        .gline (.dwell 2000) (some " 2s cooling period"),
        .gline (.eMove (-95) 1500) (some " 25mm/s long retract") ] )
  else if hw_config = PTFE then
    let prepurge_feed_length := width * (4.5 / 50)
    ( [ .gline (.xeMove width prepurge_feed_length 6000) (some " purge trail"),
        .gline (.yMove 0.6 3000) (some " Y shift"),
        .gline (.xeMove (-width) prepurge_feed_length 6000) (some " purge trail"),
        .gline (.yMove 1.4 3000) (some " Y shift"),
        .gline (.xeMove width prepurge_feed_length 6000) (some " purge trail"),
        .gline (.yMove 0.6 3000) (some " Y shift"),
        .gline (.xeMove (-width) prepurge_feed_length 6000) (some " purge trail"),
        .gline (.yMove 1.4 3000) (some " Y shift"),
        .gline (.eMove (-20) 3000) (some " rapid retract"),
        .gline (.dwell 2500) (some " 2.5s cooling period"),
        .gline (.eMove (-140) 3000) (some " 50mm/s long retract") ],
      [ .gline (.xeMove width prepurge_feed_length 6000) (some " purge trail"),
        .gline (.yMove 1.4 3000) (some " Y shift"),
        .gline (.xeMove (-width) prepurge_feed_length 6000) (some " purge trail"),
        .gline (.yMove 0.6 3000) (some " Y shift"),
        .gline (.xeMove width prepurge_feed_length 6000) (some " purge trail"),
        .gline (.yMove 1.4 3000) (some " Y shift"),
        .gline (.xeMove (-width) prepurge_feed_length 6000) (some " purge trail"),
        .gline (.yMove 0.6 3000) (some " Y shift"),
        .gline (.eMove (-20) 3000) (some " rapid retract"),
        .gline (.dwell 2500) (some " 2.5s cooling period"),
        .gline (.eMove (-140) 3000) (some " 50mm/s long retract") ] )
  else if hw_config = E3DV6 then
    let prepurge_feed_length := width * (4.5 / 50)
    ( [ .gline (.xeMove width prepurge_feed_length 6000) (some " purge trail"),
        .gline (.yMove 0.8 3000) (some " Y shift"),
        .gline (.xeMove (-width) prepurge_feed_length 6000) (some " purge trail"),
        .gline (.yMove 1.4 3000) (some " Y shift"),
        .gline (.xeMove width prepurge_feed_length 6000) (some " purge trail"),
        .gline (.yMove 0.6 3000) (some " Y shift"),
        .gline (.xeMove (-width) prepurge_feed_length 6000) (some " purge trail"),
        .gline (.yMove 1.4 3000) (some " Y shift"),
        .gline (.xeMove width prepurge_feed_length 6000) (some " purge trail"),
        .gline (.yMove 1 3000) (some " Y shift"),
        .gline (.eMove (-20) 3000) (some " rapid retract"),
        .gline (.dwell 2500) (some " 2.5s cooling period"),
        .gline (.eMove (-140) 3000) (some " 50mm/s long retract") ],
      [ .gline (.xeMove width prepurge_feed_length 6000) (some " purge trail"),
        .gline (.yMove 1.4 3000) (some " Y shift"),
        .gline (.xeMove (-width) prepurge_feed_length 6000) (some " purge trail"),
        .gline (.yMove 0.6 3000) (some " Y shift"),
        .gline (.xeMove width prepurge_feed_length 6000) (some " purge trail"),
        .gline (.yMove 1.4 3000) (some " Y shift"),
        .gline (.xeMove (-width) prepurge_feed_length 6000) (some " purge trail"),
        .gline (.yMove 0.6 3000) (some " Y shift"),
        .gline (.xeMove width prepurge_feed_length 6000) (some " purge trail"),
        .gline (.yMove 1.4 3000) (some " Y shift"),
        .gline (.eMove (-20) 3000) (some " rapid retract"),
        .gline (.dwell 2500) (some " 2.5s cooling period"),
        .gline (.eMove (-140) 3000) (some " 50mm/s long retract") ] )
  else ([], [])

/-- Method `init_post_switch_gcode` (src lines 190-215): builds the post-switch
prime table and the prepurge sign.  An unrecognized config leaves the table
empty and the sign at its initial value `1` (src line 59). -/
def init_post_switch_gcode (hw_config : String) (width : ℚ) :
    List Line × ℤ :=
  if hw_config = PEEK then
    let primetrail_length := width * (1.6 / 40)
    ( [ .gline (.eMove 125 1500) (some " 25mm/s feed"),
        .gline (.xeMove (width - 10) primetrail_length 1500) (some " prime trail") ],
      1 )
  else if hw_config = PTFE then
    let primetrail_length := width * (5 / 50)
    ( [ .gline (.eMove 100 3000) (some " 50mm/s feed"),
        .gline (.eMove 54 1500) (some " 25mm/s feed"),
        .gline (.xeMove width primetrail_length 900) (some " prime trail") ],
      1 )
  else if hw_config = E3DV6 then
    let primetrail_length := width * (5 / 50)
    ( [ .gline (.eMove 100 3000) (some " 50mm/s feed"),
        .gline (.eMove 54 1500) (some " 25mm/s feed"),
        .gline (.xeMove (-width) primetrail_length 900) (some " prime trail") ],
      -1 )
  else ([], 1)

/-- Constructor `SwitchTower.__init__` (src lines 19-65).  `int(abs(height / 2)) - 1`
is `⌊|height / 2|⌋ - 1` (the value is non-negative, so Python truncation is
floor). -/
def init (start_pos_x start_pos_y : ℚ) (hw_config : String) : SwitchTower :=
  let width : ℚ := 50
  let height : ℚ := if hw_config = E3DV6 then 14 + 2 else 14
  let purge_lines : ℤ :=
    if hw_config = E3DV6 then (⌊|height / 2|⌋ - 1) - 1 else ⌊|height / 2|⌋ - 1
  let pre := init_pre_switch_gcode hw_config width
  let post := init_post_switch_gcode hw_config width
  { width := width
    height := height
    hw_config := hw_config
    wall_width := width + 2.4
    wall_height := height + 1
    raft_width := width + 4
    raft_height := height + 2
    angle := 0
    start_pos_x := start_pos_x
    start_pos_y := start_pos_y
    raft_pos_x := start_pos_x - 2
    raft_pos_y := start_pos_y - 1.2
    last_tower_z := 0
    flipflop_purge := false
    flipflop_infill := false
    purge_line_length := width + 0.6
    purge_lines := purge_lines
    prepurge_sign := post.2
    pre_switch_lines := fun flip => if flip then pre.1 else pre.2
    post_switch_lines := post.1 }

/-- Method `generate_purge_speeds` (src lines 67-80): builds the purge speed list by
looping `i` over `range(purge_lines)`, setting `speed = 2400` whenever
`i >= min_speed_lines` (with `min_speed_lines = 0`) and prepending `speed`. -/
def generate_purge_speeds (st : SwitchTower) (min_speed : ℚ) : List ℚ :=
  let min_speed_lines : ℕ := 0
  (((List.range st.purge_lines.toNat).foldl
      (fun (acc : ℚ × List ℚ) i =>
        let speed := if min_speed_lines ≤ i then (2400 : ℚ) else acc.1
        (speed, speed :: acc.2))
      (min_speed, ([] : List ℚ)))).2

/-- Method `_get_z_hop` (src lines 267-280): optionally emit a z lift. -/
def _get_z_hop (st : SwitchTower) (layer : Layer) (z_hop z_speed : ℚ)
    (extruder : Extruder) : Option Line :=
  if extruder.z_hop ≠ 0 then
    let new_z_hop := st.last_tower_z + extruder.z_hop
    if new_z_hop ≠ layer.z + z_hop then
      some (.gline (.zMove new_z_hop z_speed) (some " z-hop"))
    else none
  else none

/-- Method `_get_retraction` (src lines 282-294): compute the retraction to add from
the current e position, suppress it near zero, clamp it from above to the
configured retract length, and emit `G1 E{-retraction}`. -/
def _get_retraction (e_pos : ℚ) (extruder : Extruder) : Option Line :=
  let retraction := extruder.retract + e_pos
  if utils.is_float_zero retraction 3 = false then
    let retraction :=
      if retraction > extruder.retract then extruder.retract else retraction
    some (.gline (.eMove (-retraction) extruder.retract_speed)
      (some " tower retract"))
  else none

/-- Method `_get_wall_position_gcode` (src lines 296-307). -/
def _get_wall_position_gcode (st : SwitchTower) (flipflop : Bool)
    (xy_speed : ℚ) : Line :=
  let x := st.start_pos_x - 1.2
  let y := st.start_pos_y - 0.5
  let y := if flipflop = false then y + st.wall_height else y
  .gline (gcode.gen_head_move x y xy_speed) (some " move to purge zone")

/-- Method `_get_wall_gcode` (src lines 309-326): the tower wall perimeter, four
directional moves whose orientation depends on the flip flag, the last one
shortened to `wall_height - 0.3` and flagged `last_line`. -/
def _get_wall_gcode (st : SwitchTower) (flipflop : Bool) (extruder : Extruder)
    (wall_speed feed_rate : ℚ) : List Line :=
  let last_y := st.wall_height - 0.3
  if flipflop then
    [ .gline (gcode.gen_direction_move (.q gcode.E) (.q st.wall_width)
        wall_speed (some extruder.tool) (some feed_rate) false) (some " wall"),
      .gline (gcode.gen_direction_move (.q gcode.N) (.q st.wall_height)
        wall_speed (some extruder.tool) (some feed_rate) false) (some " wall"),
      .gline (gcode.gen_direction_move (.q gcode.W) (.q st.wall_width)
        wall_speed (some extruder.tool) (some feed_rate) false) (some " wall"),
      .gline (gcode.gen_direction_move (.q gcode.S) (.q last_y)
        wall_speed (some extruder.tool) (some feed_rate) true) (some " wall") ]
  else
    [ .gline (gcode.gen_direction_move (.q gcode.E) (.q st.wall_width)
        wall_speed (some extruder.tool) (some feed_rate) false) (some " wall"),
      .gline (gcode.gen_direction_move (.q gcode.S) (.q st.wall_height)
        wall_speed (some extruder.tool) (some feed_rate) false) (some " wall"),
      .gline (gcode.gen_direction_move (.q gcode.W) (.q st.wall_width)
        wall_speed (some extruder.tool) (some feed_rate) false) (some " wall"),
      .gline (gcode.gen_direction_move (.q gcode.N) (.q last_y)
        wall_speed (some extruder.tool) (some feed_rate) true) (some " wall") ]

/-- Method `get_raft_lines` (src lines 217-265): the one-shot raft, returning the
emitted lines and the successor state (last side effect of the generator:
`last_tower_z = 0.2`).  The `first_layer` parameter is unused in the source
body and kept for signature fidelity. -/
def get_raft_lines (st : SwitchTower) (_first_layer : Layer)
    (extruder : Extruder) (retract : Bool) (xy_speed z_speed : ℚ) :
    List Line × SwitchTower :=
  let boxW := st.raft_width + 0.8
  let boxH := st.raft_height + 0.8
  let feed_rate := extruder.get_feed_rate 1.3
  let raftLoop : List Line :=
    ((List.range (Int.floor (st.raft_width / 2)).toNat).map (fun _ =>
      [ Line.gline (gcode.gen_direction_move (.q gcode.N) (.q st.raft_height)
          1000 (some extruder.tool) (some feed_rate) false) (some " raft1"),
        Line.gline (gcode.gen_direction_move (.q gcode.E) (.q 1)
          1000 none none false) (some " raft2"),
        Line.gline (gcode.gen_direction_move (.q gcode.S) (.q st.raft_height)
          1000 (some extruder.tool) (some feed_rate) false) (some " raft3"),
        Line.gline (gcode.gen_direction_move (.q gcode.E) (.q 1)
          1000 none none false) (some " raft4") ])).flatten
  ( [Line.marker " TOWER RAFT START"]
    ++ (if extruder.z_hop ≠ 0 then
          [Line.gline (.zMove (0.2 + extruder.z_hop) z_speed) (some " z-hop")]
        else [])
    ++ [ Line.gline (gcode.gen_head_move (st.raft_pos_x - 0.4)
           (st.raft_pos_y - 0.4) xy_speed) (some " move to raft zone"),
         Line.gline (.zMove 0.2 z_speed) (some " move z close"),
         Line.gline .relativeMode (some " relative positioning"),
         Line.gline (gcode.gen_direction_move (.q gcode.E) (.q boxW)
           2000 (some extruder.tool) none false) (some " raft wall"),
         Line.gline (gcode.gen_direction_move (.q gcode.N) (.q boxH)
           2000 (some extruder.tool) none false) (some " raft wall"),
         Line.gline (gcode.gen_direction_move (.q gcode.W) (.q boxW)
           2000 (some extruder.tool) none false) (some " raft wall"),
         Line.gline (gcode.gen_direction_move (.q gcode.S) (.q (boxH - 0.4))
           2000 (some extruder.tool) none false) (some " raft wall"),
         Line.gline (gcode.gen_direction_move (.q gcode.E) (.q (boxW - 0.4))
           2000 (some extruder.tool) none false) (some " raft wall"),
         Line.gline (gcode.gen_direction_move (.q gcode.N) (.q (boxH - 0.8))
           2000 (some extruder.tool) none false) (some " raft wall"),
         Line.gline (gcode.gen_direction_move (.q gcode.W) (.q (boxW - 0.8))
           2000 (some extruder.tool) none false) (some " raft wall"),
         Line.gline (gcode.gen_direction_move (.q gcode.S) (.q (boxH - 1.2))
           2000 (some extruder.tool) none false) (some " raft wall"),
         Line.gline (gcode.gen_direction_move (.q gcode.SE) (.q 0.6)
           xy_speed none none false) none ]
    ++ raftLoop
    ++ (if retract then [extruder.get_retract_gcode] else [])
    ++ [ Line.gline .absoluteMode (some " absolute positioning"),
         Line.marker " TOWER RAFT END" ],
    { st with last_tower_z := 0.2 } )

/-- Loop body of the post-switch purge loop of `get_tower_lines` (src lines
387-397): two Y shifts (0.6/0.9 ordered by the flip flag) interleaved with
two opposite purge trail moves at the given speed. -/
def tower_purge_block (flipflop_purge : Bool) (dir_1 dir_2 : FVal)
    (purge_length : ℚ) (tool : ℤ) (purge_feed_rate speed : ℚ) : List Line :=
  if flipflop_purge then
    [ Line.gline (gcode.gen_direction_move (.q gcode.N) (.q 0.6) 3000
        none none false) (some " Y shift"),
      Line.gline (gcode.gen_direction_move dir_1 (.q purge_length) speed
        (some tool) (some purge_feed_rate) false) (some " purge trail"),
      Line.gline (gcode.gen_direction_move (.q gcode.N) (.q 0.9) 3000
        none none false) (some " Y shift"),
      Line.gline (gcode.gen_direction_move dir_2 (.q purge_length) speed
        (some tool) (some purge_feed_rate) false) (some " purge trail") ]
  else
    [ Line.gline (gcode.gen_direction_move (.q gcode.N) (.q 0.9) 3000
        none none false) (some " Y shift"),
      Line.gline (gcode.gen_direction_move dir_1 (.q purge_length) speed
        (some tool) (some purge_feed_rate) false) (some " purge trail"),
      Line.gline (gcode.gen_direction_move (.q gcode.N) (.q 0.6) 3000
        none none false) (some " Y shift"),
      Line.gline (gcode.gen_direction_move dir_2 (.q purge_length) speed
        (some tool) (some purge_feed_rate) false) (some " purge trail") ]

/-- Method `get_tower_lines` (src lines 328-436): the switch generator.  Returns the
fully consumed emission sequence and the successor state.  Note that the
source updates `last_tower_z` before the purge sequence (src line 355), so
the re-evaluated z-hop near the end (src line 430) sees the updated value;
both z-hop evaluations pass `old_e`. -/
def get_tower_lines (st : SwitchTower) (layer : Layer) (e_pos : ℚ)
    (old_e new_e : Extruder) (z_hop z_speed xy_speed : ℚ) :
    List Line × SwitchTower :=
  let min_speed := (layer.get_outer_perimeter_rates).1
  let feed_rate := (layer.get_outer_perimeter_rates).2
  let retraction := _get_retraction e_pos old_e
  let hop := st._get_z_hop layer z_hop z_speed old_e
  let new_tower_z := st.last_tower_z + layer.height
  let st1 := { st with last_tower_z := new_tower_z }
  let headPos : Line :=
    if st.flipflop_purge then
      .gline (gcode.gen_head_move (st.start_pos_x - 0.6)
        (st.start_pos_y + 0.2) xy_speed) (some " move to purge zone")
    else
      .gline (gcode.gen_head_move (st.start_pos_x + 0.6)
        st.start_pos_y xy_speed) (some " move to purge zone")
  let purge_feed_rate := new_e.get_feed_rate 1.2
  let purge_length : ℚ := st.purge_line_length * (st.prepurge_sign : ℚ)
  let dir_1 : FVal := if st.prepurge_sign = 1 then .q gcode.W else .q gcode.E
  let dir_2 : FVal := if st.prepurge_sign = 1 then .q gcode.E else .q gcode.W
  let loopLines : List Line :=
    ((st.generate_purge_speeds min_speed).map
      (tower_purge_block st.flipflop_purge dir_1 dir_2 purge_length
        new_e.tool purge_feed_rate)).flatten
  let finisher : List Line :=
    (if st.flipflop_purge then
      [Line.gline (gcode.gen_direction_move (.q gcode.N) (.q 0.6) 3000
        none none false) (some " Y shift")]
     else
      [Line.gline (gcode.gen_direction_move (.q gcode.N) (.q 0.9) 3000
        none none false) (some " Y shift")])
    ++ [Line.gline (gcode.gen_direction_move dir_1 (.q purge_length) 2400
        (some new_e.tool) (some feed_rate) false) (some " purge trail")]
  let extraE3D : List Line :=
    if st.hw_config = E3DV6 then
      (if st.flipflop_purge then
        [Line.gline (gcode.gen_direction_move (.q gcode.N) (.q 0.9) 3000
          none none false) (some " Y shift")]
       else
        [Line.gline (gcode.gen_direction_move (.q gcode.N) (.q 0.6) 3000
          none none false) (some " Y shift")])
      ++ [Line.gline (gcode.gen_direction_move dir_2 (.q purge_length)
          min_speed (some new_e.tool) (some feed_rate) false)
          (some " purge trail")]
    else []
  let direction : FVal := if st.hw_config = E3DV6 then dir_2 else dir_1
  let wipe : List Line :=
    if new_e.wipe ≠ 0 then
      [Line.gline (gcode.gen_direction_move (.plus180 direction)
        (.q new_e.wipe) 3000 none none false) (some " wipe")]
    else []
  let hop2 := st1._get_z_hop layer z_hop z_speed old_e
  ( [Line.marker " TOWER START"]
    ++ retraction.toList
    ++ hop.toList
    ++ [ headPos,
         Line.gline (.zMove new_tower_z z_speed) (some " move z close"),
         Line.gline .relativeMode (some " relative positioning"),
         old_e.get_prime_gcode (some (-0.1)) ]
    ++ st.pre_switch_lines st.flipflop_purge
    ++ [Line.gline (.toolChange new_e.tool) (some " change tool")]
    ++ st.post_switch_lines
    ++ loopLines
    ++ finisher
    ++ extraE3D
    ++ [ Line.gline .absoluteMode (some " absolute positioning"),
         st._get_wall_position_gcode false xy_speed,
         Line.gline .relativeMode (some " relative positioning") ]
    ++ st._get_wall_gcode false new_e min_speed feed_rate
    ++ [new_e.get_retract_gcode]
    ++ wipe
    ++ [ Line.gline .absoluteMode (some " absolute positioning"),
         Line.gline .resetE (some " reset extruder position") ]
    ++ hop2.toList
    ++ [Line.marker " TOWER END"],
    { st with last_tower_z := new_tower_z,
              flipflop_purge := !st.flipflop_purge } )

/-- The zig-zag loop of `get_infill_lines` (src lines 486-496): one pass per
speed; the `round` counter is decremented first, the direction alternates
with `flip`, and the pass with `round = 0` is flagged `last_line`.  Returns
the passes and the final value of the `direction` variable (used afterwards
for the wipe move). -/
def infill_zigzag (angle path : FVal) (tool : ℤ) (feed_rate : ℚ) :
    List ℚ → ℕ → Bool → FVal → List Line × FVal
  | [], _, _, direction => ([], direction)
  | speed :: rest, round, flip, _ =>
      let round := round - 1
      let direction := if flip then angle else FVal.revMinus angle
      let line := Line.gline (gcode.gen_direction_move direction path speed
        (some tool) (some feed_rate) (round == 0)) (some " infill")
      let next := infill_zigzag angle path tool feed_rate rest round (!flip)
        direction
      (line :: next.1, next.2)

/-- Method `get_infill_lines` (src lines 438-510): the infill generator.  Returns
the fully consumed emission sequence and the successor state. -/
def get_infill_lines (st : SwitchTower) (layer : Layer) (e_pos : ℚ)
    (extruder : Extruder) (z_hop z_speed xy_speed : ℚ) :
    List Line × SwitchTower :=
  let min_speed := (layer.get_outer_perimeter_rates).1
  let feed_rate := (layer.get_outer_perimeter_rates).2
  let retraction := _get_retraction e_pos extruder
  let hop := st._get_z_hop layer z_hop z_speed extruder
  let new_tower_z := st.last_tower_z + layer.height
  let st1 := { st with last_tower_z := new_tower_z }
  let infill_x := st.wall_width / 6
  let infill_y := st.wall_height - 0.3
  let infill_angle : FVal := .atanDeg infill_y infill_x
  let infill_path_length := gcode.calculate_path_length (0, 0)
    (infill_x, infill_y)
  let step := (2400 - min_speed) / 4
  let speeds := ((List.range 4).map (fun i => 2400 - (i : ℚ) * step))
    ++ [min_speed, min_speed]
  let zig := infill_zigzag infill_angle infill_path_length extruder.tool
    feed_rate speeds speeds.length st.flipflop_infill infill_angle
  let wipe : List Line :=
    if extruder.wipe ≠ 0 then
      [Line.gline (gcode.gen_direction_move (.plus180 zig.2)
        (.q extruder.wipe) 2000 none none false) (some " wipe")]
    else []
  let hop2 := st1._get_z_hop layer z_hop z_speed extruder
  ( [Line.marker " TOWER INFILL START"]
    ++ retraction.toList
    ++ hop.toList
    ++ [ st._get_wall_position_gcode st.flipflop_infill xy_speed,
         Line.gline (.zMove new_tower_z z_speed) (some " move z close"),
         Line.gline .relativeMode (some " relative positioning"),
         extruder.get_prime_gcode none ]
    ++ st._get_wall_gcode st.flipflop_infill extruder 2400 feed_rate
    ++ zig.1
    ++ [extruder.get_retract_gcode]
    ++ wipe
    ++ [Line.gline .absoluteMode (some " absolute positioning")]
    ++ hop2.toList
    ++ [ Line.gline .resetE (some " reset extruder position"),
         Line.marker " TOWER INFILL END" ],
    { st with last_tower_z := new_tower_z,
              flipflop_infill := !st.flipflop_infill } )

end SwitchTower

/-- One generation call of a job, for stating properties of whole call
sequences (spec section 2: raft once, then switch or infill per layer). -/
inductive JobCall where
  | raft (first_layer : Layer) (extruder : Extruder) (retract : Bool)
      (xy_speed z_speed : ℚ)
  | switch (layer : Layer) (e_pos : ℚ) (old_e new_e : Extruder)
      (z_hop z_speed xy_speed : ℚ)
  | infill (layer : Layer) (e_pos : ℚ) (extruder : Extruder)
      (z_hop z_speed xy_speed : ℚ)

/-- Whether a call is the raft call. -/
def JobCall.isRaft : JobCall → Bool
  | .raft _ _ _ _ _ => true
  | _ => false

/-- The layer height a call adds to the tower (0 for the raft, whose height
is fixed by the generator itself). -/
def JobCall.layerHeight : JobCall → ℚ
  | .raft _ _ _ _ _ => 0
  | .switch l _ _ _ _ _ _ => l.height
  | .infill l _ _ _ _ _ => l.height

/-- State transition of one fully consumed generation call. -/
def SwitchTower.apply_call (st : SwitchTower) : JobCall → SwitchTower
  | .raft fl e r xy z => (st.get_raft_lines fl e r xy z).2
  | .switch l ep oe ne zh zs xys =>
      (st.get_tower_lines l ep oe ne zh zs xys).2
  | .infill l ep e zh zs xys => (st.get_infill_lines l ep e zh zs xys).2

/-! ### Line classification helpers

Boolean classifiers for the emitted line kinds the claims count or filter,
together with small reduction lemmas (one per constructor shape) so that the
classifiers compute inside proofs about symbolic states. -/

/-- Is this line the tool-change command `T{tool}`? -/
def isToolChangeLine : Line → Bool
  | .gline (.toolChange _) _ => true
  | _ => false

/-- Is this line a directional move carrying the given comment?  Specialized
below to the post-switch " purge trail" moves and the " infill" passes. -/
def isDirMoveComment (target : String) : Line → Bool
  | .gline (.dirMove _ _ _ _ _ _) (some c) => c == target
  | _ => false

/-- Is this line a z move carrying the " z-hop" comment? -/
def isZHopLine : Line → Bool
  | .gline (.zMove _ _) (some c) => c == " z-hop"
  | _ => false

@[simp] lemma isToolChangeLine_marker (s) : isToolChangeLine (.marker s) = false := rfl

@[simp] lemma isToolChangeLine_external (c) : isToolChangeLine (.external c) = false := rfl

@[simp] lemma isToolChangeLine_toolChange (t c) :
    isToolChangeLine (.gline (.toolChange t) c) = true := rfl

@[simp] lemma isToolChangeLine_headMove (x y s c) :
    isToolChangeLine (.gline (.headMove x y s) c) = false := rfl

@[simp] lemma isToolChangeLine_zMove (z s c) :
    isToolChangeLine (.gline (.zMove z s) c) = false := rfl

@[simp] lemma isToolChangeLine_dirMove (d l s e f ll c) :
    isToolChangeLine (.gline (.dirMove d l s e f ll) c) = false := rfl

@[simp] lemma isToolChangeLine_eMove (v s c) :
    isToolChangeLine (.gline (.eMove v s) c) = false := rfl

@[simp] lemma isToolChangeLine_xeMove (x v s c) :
    isToolChangeLine (.gline (.xeMove x v s) c) = false := rfl

@[simp] lemma isToolChangeLine_yMove (y s c) :
    isToolChangeLine (.gline (.yMove y s) c) = false := rfl

@[simp] lemma isToolChangeLine_dwell (ms c) :
    isToolChangeLine (.gline (.dwell ms) c) = false := rfl

@[simp] lemma isToolChangeLine_relativeMode (c) :
    isToolChangeLine (.gline .relativeMode c) = false := rfl

@[simp] lemma isToolChangeLine_absoluteMode (c) :
    isToolChangeLine (.gline .absoluteMode c) = false := rfl

@[simp] lemma isToolChangeLine_resetE (c) :
    isToolChangeLine (.gline .resetE c) = false := rfl

@[simp] lemma isDirMoveComment_marker (t s) : isDirMoveComment t (.marker s) = false := rfl

@[simp] lemma isDirMoveComment_external (t c) : isDirMoveComment t (.external c) = false := rfl

@[simp] lemma isDirMoveComment_toolChange (t tl c) :
    isDirMoveComment t (.gline (.toolChange tl) c) = false := rfl

@[simp] lemma isDirMoveComment_headMove (t x y s c) :
    isDirMoveComment t (.gline (.headMove x y s) c) = false := rfl

@[simp] lemma isDirMoveComment_zMove (t z s c) :
    isDirMoveComment t (.gline (.zMove z s) c) = false := rfl

@[simp] lemma isDirMoveComment_dirMove_some (t d l s e f ll c) :
    isDirMoveComment t (.gline (.dirMove d l s e f ll) (some c)) = (c == t) := rfl

@[simp] lemma isDirMoveComment_dirMove_none (t d l s e f ll) :
    isDirMoveComment t (.gline (.dirMove d l s e f ll) none) = false := rfl

@[simp] lemma isDirMoveComment_eMove (t v s c) :
    isDirMoveComment t (.gline (.eMove v s) c) = false := rfl

@[simp] lemma isDirMoveComment_xeMove (t x v s c) :
    isDirMoveComment t (.gline (.xeMove x v s) c) = false := rfl

@[simp] lemma isDirMoveComment_yMove (t y s c) :
    isDirMoveComment t (.gline (.yMove y s) c) = false := rfl

@[simp] lemma isDirMoveComment_dwell (t ms c) :
    isDirMoveComment t (.gline (.dwell ms) c) = false := rfl

@[simp] lemma isDirMoveComment_relativeMode (t c) :
    isDirMoveComment t (.gline .relativeMode c) = false := rfl

@[simp] lemma isDirMoveComment_absoluteMode (t c) :
    isDirMoveComment t (.gline .absoluteMode c) = false := rfl

@[simp] lemma isDirMoveComment_resetE (t c) :
    isDirMoveComment t (.gline .resetE c) = false := rfl

@[simp] lemma isZHopLine_marker (s) : isZHopLine (.marker s) = false := rfl

@[simp] lemma isZHopLine_external (c) : isZHopLine (.external c) = false := rfl

@[simp] lemma isZHopLine_toolChange (t c) :
    isZHopLine (.gline (.toolChange t) c) = false := rfl

@[simp] lemma isZHopLine_headMove (x y s c) :
    isZHopLine (.gline (.headMove x y s) c) = false := rfl

@[simp] lemma isZHopLine_zMove_some (z s c) :
    isZHopLine (.gline (.zMove z s) (some c)) = (c == " z-hop") := rfl

@[simp] lemma isZHopLine_zMove_none (z s) :
    isZHopLine (.gline (.zMove z s) none) = false := rfl

@[simp] lemma isZHopLine_dirMove (d l s e f ll c) :
    isZHopLine (.gline (.dirMove d l s e f ll) c) = false := rfl

@[simp] lemma isZHopLine_eMove (v s c) :
    isZHopLine (.gline (.eMove v s) c) = false := rfl

@[simp] lemma isZHopLine_xeMove (x v s c) :
    isZHopLine (.gline (.xeMove x v s) c) = false := rfl

@[simp] lemma isZHopLine_yMove (y s c) :
    isZHopLine (.gline (.yMove y s) c) = false := rfl

@[simp] lemma isZHopLine_dwell (ms c) :
    isZHopLine (.gline (.dwell ms) c) = false := rfl

@[simp] lemma isZHopLine_relativeMode (c) :
    isZHopLine (.gline .relativeMode c) = false := rfl

@[simp] lemma isZHopLine_absoluteMode (c) :
    isZHopLine (.gline .absoluteMode c) = false := rfl

@[simp] lemma isZHopLine_resetE (c) :
    isZHopLine (.gline .resetE c) = false := rfl

/-! ### Segment lemmas -/

/-- The retraction helper never produces a line satisfying a classifier that
is false on bare extruder moves. -/
lemma countP_retraction_eq_zero (p : Line → Bool)
    (hp : ∀ v f c, p (.gline (.eMove v f) c) = false) (e_pos : ℚ)
    (ex : Extruder) :
    ((SwitchTower._get_retraction e_pos ex).toList).countP p = 0 := by
  simp only [SwitchTower._get_retraction]
  split
  · simp [hp]
  · rfl

/-- The z-hop helper never produces a line satisfying a classifier that is
false on z moves. -/
lemma countP_z_hop_eq_zero (p : Line → Bool)
    (hp : ∀ z s c, p (.gline (.zMove z s) c) = false) (st : SwitchTower)
    (layer : Layer) (zh zs : ℚ) (ex : Extruder) :
    ((st._get_z_hop layer zh zs ex).toList).countP p = 0 := by
  simp only [SwitchTower._get_z_hop]
  split
  · split
    · simp [hp]
    · rfl
  · rfl

/-- The wall perimeter never produces a line satisfying a classifier that is
false on " wall" directional moves. -/
lemma countP_wall_eq_zero (p : Line → Bool)
    (hp : ∀ d l s e f ll, p (.gline (.dirMove d l s e f ll) (some " wall")) = false)
    (st : SwitchTower) (flip : Bool) (ex : Extruder) (ws fr : ℚ) :
    (st._get_wall_gcode flip ex ws fr).countP p = 0 := by
  cases flip <;>
    simp [SwitchTower._get_wall_gcode, gcode.gen_direction_move, hp]

/-- A flattened list of blocks each counting zero counts zero. -/
lemma countP_flatten_eq_zero {α : Type} (p : α → Bool) (L : List (List α))
    (h : ∀ l ∈ L, l.countP p = 0) : L.flatten.countP p = 0 := by
  induction L with
  | nil => rfl
  | cons a L ih =>
      simp only [List.flatten_cons, List.countP_append]
      rw [h a (List.mem_cons_self a L), ih (fun l hl => h l (List.mem_cons_of_mem a hl))]

/-- A flattened list of blocks each counting `k` counts `k` per block. -/
lemma countP_flatten_eq_const {α : Type} (p : α → Bool) (L : List (List α))
    (k : ℕ) (h : ∀ l ∈ L, l.countP p = k) :
    L.flatten.countP p = k * L.length := by
  induction L with
  | nil => simp
  | cons a L ih =>
      simp only [List.flatten_cons, List.countP_append, List.length_cons]
      rw [h a (List.mem_cons_self a L), ih (fun l hl => h l (List.mem_cons_of_mem a hl))]
      ring

/-- One post-switch purge loop block contains no tool change. -/
lemma countP_purge_block_toolChange (flip : Bool) (d1 d2 : FVal) (pl : ℚ)
    (tool : ℤ) (pf s : ℚ) :
    (SwitchTower.tower_purge_block flip d1 d2 pl tool pf s).countP
      isToolChangeLine = 0 := by
  cases flip <;> rfl

/-- One post-switch purge loop block contains no z-hop line. -/
lemma countP_purge_block_zHop (flip : Bool) (d1 d2 : FVal) (pl : ℚ)
    (tool : ℤ) (pf s : ℚ) :
    (SwitchTower.tower_purge_block flip d1 d2 pl tool pf s).countP
      isZHopLine = 0 := by
  cases flip <;> rfl

/-- One post-switch purge loop block contains exactly two " purge trail"
directional moves. -/
lemma countP_purge_block_purgeTrail (flip : Bool) (d1 d2 : FVal) (pl : ℚ)
    (tool : ℤ) (pf s : ℚ) :
    (SwitchTower.tower_purge_block flip d1 d2 pl tool pf s).countP
      (isDirMoveComment " purge trail") = 2 := by
  cases flip <;> rfl

/-- Characterization of `generate_purge_speeds`: the loop always hits the
`i >= min_speed_lines` branch (the threshold is 0), so the result is
`purge_lines` copies of 2400. -/
lemma generate_purge_speeds_eq (st : SwitchTower) (min_speed : ℚ) :
    st.generate_purge_speeds min_speed =
      List.replicate st.purge_lines.toNat (2400 : ℚ) := by
  have key : ∀ (f : ℚ × List ℚ → ℕ → ℚ × List ℚ),
      (∀ a i, f a i = (2400, 2400 :: a.2)) →
      ∀ (is : List ℕ) (s : ℚ) (acc : List ℚ),
        ((is.foldl f (s, acc))).2 = List.replicate is.length (2400 : ℚ) ++ acc := by
    intro f hf is
    induction is with
    | nil => intro s acc; rfl
    | cons i is ih =>
        intro s acc
        rw [List.foldl_cons, hf]
        rw [ih]
        simp [List.replicate_succ']
  simp only [SwitchTower.generate_purge_speeds]
  rw [key _ (by intro a i; simp) (List.range st.purge_lines.toNat) min_speed []]
  simp

/-- The wall positioning line is a head move, never a tool change. -/
@[simp] lemma isToolChangeLine_wall_position (st : SwitchTower) (flip : Bool)
    (xy : ℚ) : isToolChangeLine (st._get_wall_position_gcode flip xy) = false := rfl

/-- The wall positioning line is never a z-hop line. -/
@[simp] lemma isZHopLine_wall_position (st : SwitchTower) (flip : Bool)
    (xy : ℚ) : isZHopLine (st._get_wall_position_gcode flip xy) = false := rfl

/-- The wall positioning line is never a commented directional move. -/
@[simp] lemma isDirMoveComment_wall_position (t : String) (st : SwitchTower)
    (flip : Bool) (xy : ℚ) :
    isDirMoveComment t (st._get_wall_position_gcode flip xy) = false := rfl

/-- Core lemma for the switch generator: when the hardware tables contain no
tool-change line (true of every constructed state), a fully consumed
`get_tower_lines` call emits exactly one tool-change command - the
`T{new_e.tool}` line of src line 369. -/
lemma tower_toolchange_count (st : SwitchTower) (layer : Layer) (e_pos : ℚ)
    (old_e new_e : Extruder) (zh zs xys : ℚ)
    (h1 : (st.pre_switch_lines true).countP isToolChangeLine = 0)
    (h2 : (st.pre_switch_lines false).countP isToolChangeLine = 0)
    (h3 : st.post_switch_lines.countP isToolChangeLine = 0) :
    ((st.get_tower_lines layer e_pos old_e new_e zh zs xys).1).countP
      isToolChangeLine = 1 := by
  have hloop : ∀ (speeds : List ℚ) (flip : Bool) (d1 d2 : FVal) (pl : ℚ)
      (tl : ℤ) (pf : ℚ),
      ((speeds.map (SwitchTower.tower_purge_block flip d1 d2 pl tl pf)).flatten).countP
        isToolChangeLine = 0 := by
    intro speeds flip d1 d2 pl tl pf
    refine countP_flatten_eq_zero _ _ ?_
    intro l hl
    obtain ⟨s, _, rfl⟩ := List.mem_map.mp hl
    exact countP_purge_block_toolChange flip d1 d2 pl tl pf s
  cases hf : st.flipflop_purge <;> by_cases hw : st.hw_config = E3DV6 <;>
    simp [SwitchTower.get_tower_lines, hf, hw, h1, h2, h3,
      countP_retraction_eq_zero isToolChangeLine (fun _ _ _ => rfl),
      countP_z_hop_eq_zero isToolChangeLine (fun _ _ _ => rfl),
      countP_wall_eq_zero isToolChangeLine (fun _ _ _ _ _ _ => rfl),
      hloop, Extruder.get_prime_gcode, Extruder.get_retract_gcode,
      gcode.gen_direction_move, gcode.gen_head_move, List.countP_append,
      List.countP_cons, List.countP_nil,
      apply_ite (List.countP isToolChangeLine)]

/-- Core lemma for claim C2: when the hardware tables contain no
post-switch-style purge trail line (true of every constructed state, whose
table trails are `xeMove` lines), a fully consumed `get_tower_lines` call
emits `2 * purge_lines` purge-trail directional moves from the speed loop,
plus the finishing trail, plus one more trail exactly for E3DV6. -/
lemma tower_purgetrail_count (st : SwitchTower) (layer : Layer) (e_pos : ℚ)
    (old_e new_e : Extruder) (zh zs xys : ℚ)
    (h1 : (st.pre_switch_lines true).countP (isDirMoveComment " purge trail") = 0)
    (h2 : (st.pre_switch_lines false).countP (isDirMoveComment " purge trail") = 0)
    (h3 : st.post_switch_lines.countP (isDirMoveComment " purge trail") = 0) :
    ((st.get_tower_lines layer e_pos old_e new_e zh zs xys).1).countP
      (isDirMoveComment " purge trail") =
      2 * st.purge_lines.toNat + (if st.hw_config = E3DV6 then 2 else 1) := by
  have hloop : ∀ (flip : Bool) (d1 d2 : FVal) (pl : ℚ) (tl : ℤ) (pf : ℚ)
      (speeds : List ℚ),
      ((speeds.map (SwitchTower.tower_purge_block flip d1 d2 pl tl pf)).flatten).countP
        (isDirMoveComment " purge trail") = 2 * speeds.length := by
    intro flip d1 d2 pl tl pf speeds
    rw [countP_flatten_eq_const _ _ 2 ?_]
    · rw [List.length_map]
    · intro l hl
      obtain ⟨s, _, rfl⟩ := List.mem_map.mp hl
      exact countP_purge_block_purgeTrail flip d1 d2 pl tl pf s
  cases hf : st.flipflop_purge <;> by_cases hw : st.hw_config = E3DV6 <;>
    simp [SwitchTower.get_tower_lines, hf, hw, h1, h2, h3,
      countP_retraction_eq_zero (isDirMoveComment " purge trail")
        (fun _ _ _ => rfl),
      countP_z_hop_eq_zero (isDirMoveComment " purge trail")
        (fun _ _ _ => rfl),
      countP_wall_eq_zero (isDirMoveComment " purge trail")
        (fun _ _ _ _ _ _ => rfl),
      hloop, countP_purge_block_purgeTrail, generate_purge_speeds_eq,
      List.length_replicate,
      Extruder.get_prime_gcode, Extruder.get_retract_gcode,
      gcode.gen_direction_move, gcode.gen_head_move, List.countP_append,
      List.countP_cons, List.countP_nil,
      apply_ite (List.countP (isDirMoveComment " purge trail"))] <;>
    omega

/-- A list counting zero filters to nil. -/
lemma filter_eq_nil_of_countP {α : Type} (p : α → Bool) (l : List α)
    (h : l.countP p = 0) : l.filter p = [] := by
  rw [List.filter_eq_nil_iff]
  intro a ha hpa
  have := List.countP_eq_zero.mp h a ha
  simp [hpa] at this

/-- A flattened list of blocks each filtering to nil filters to nil. -/
lemma filter_flatten_eq_nil {α : Type} (p : α → Bool) (L : List (List α))
    (h : ∀ l ∈ L, l.filter p = []) : L.flatten.filter p = [] := by
  induction L with
  | nil => rfl
  | cons a L ih =>
      simp only [List.flatten_cons, List.filter_append]
      rw [h a (List.mem_cons_self a L),
        ih (fun l hl => h l (List.mem_cons_of_mem a hl))]
      rfl

/-- Whatever the z-hop helper emits is a z-hop line, so filtering for z-hop
lines keeps it unchanged. -/
lemma filter_z_hop_self (st : SwitchTower) (layer : Layer) (zh zs : ℚ)
    (ex : Extruder) :
    ((st._get_z_hop layer zh zs ex).toList).filter isZHopLine =
      (st._get_z_hop layer zh zs ex).toList := by
  simp only [SwitchTower._get_z_hop]
  split
  · split
    · rfl
    · rfl
  · rfl

/-- Core lemma for claim C10 (z-hop provenance): when the hardware tables
contain no z-hop line, the z-hop lines of a switch call are exactly the
optional hop computed from `old_e` before the purge (at the incoming
`last_tower_z`) followed by the optional hop recomputed from `old_e` after
the mid-call `last_tower_z` update. -/
lemma tower_zhop_lines (st : SwitchTower) (layer : Layer) (e_pos : ℚ)
    (old_e new_e : Extruder) (zh zs xys : ℚ)
    (h1 : (st.pre_switch_lines true).countP isZHopLine = 0)
    (h2 : (st.pre_switch_lines false).countP isZHopLine = 0)
    (h3 : st.post_switch_lines.countP isZHopLine = 0) :
    ((st.get_tower_lines layer e_pos old_e new_e zh zs xys).1).filter
      isZHopLine =
      (st._get_z_hop layer zh zs old_e).toList ++
      ({ st with last_tower_z := st.last_tower_z + layer.height }._get_z_hop
        layer zh zs old_e).toList := by
  have hloopf : ∀ (flip : Bool) (d1 d2 : FVal) (pl : ℚ) (tl : ℤ) (pf : ℚ)
      (speeds : List ℚ),
      ((speeds.map (SwitchTower.tower_purge_block flip d1 d2 pl tl pf)).flatten).filter
        isZHopLine = [] := by
    intro flip d1 d2 pl tl pf speeds
    refine filter_flatten_eq_nil _ _ ?_
    intro l hl
    obtain ⟨s, _, rfl⟩ := List.mem_map.mp hl
    exact filter_eq_nil_of_countP _ _ (countP_purge_block_zHop flip d1 d2 pl tl pf s)
  cases hf : st.flipflop_purge <;> by_cases hw : st.hw_config = E3DV6 <;>
    simp [SwitchTower.get_tower_lines, hf, hw,
      filter_eq_nil_of_countP isZHopLine _ h1,
      filter_eq_nil_of_countP isZHopLine _ h2,
      filter_eq_nil_of_countP isZHopLine _ h3,
      (fun ep ex => filter_eq_nil_of_countP isZHopLine _
        (countP_retraction_eq_zero isZHopLine (fun _ _ _ => rfl) ep ex)),
      (fun s flip ex ws fr => filter_eq_nil_of_countP isZHopLine _
        (countP_wall_eq_zero isZHopLine (fun _ _ _ _ _ _ => rfl) s flip ex ws fr)),
      filter_z_hop_self, hloopf,
      Extruder.get_prime_gcode, Extruder.get_retract_gcode,
      gcode.gen_direction_move, gcode.gen_head_move, List.filter_append,
      List.filter_cons, apply_ite (List.filter isZHopLine)]

/-- The successor state of a switch call: `last_tower_z` grows by the layer
height and `flipflop_purge` inverts; nothing else changes. -/
lemma tower_final_state (st : SwitchTower) (layer : Layer) (e_pos : ℚ)
    (old_e new_e : Extruder) (zh zs xys : ℚ) :
    (st.get_tower_lines layer e_pos old_e new_e zh zs xys).2 =
      { st with last_tower_z := st.last_tower_z + layer.height,
                flipflop_purge := !st.flipflop_purge } := rfl

/-- The successor state of an infill call: `last_tower_z` grows by the layer
height and `flipflop_infill` inverts; nothing else changes. -/
lemma infill_final_state (st : SwitchTower) (layer : Layer) (e_pos : ℚ)
    (ex : Extruder) (zh zs xys : ℚ) :
    (st.get_infill_lines layer e_pos ex zh zs xys).2 =
      { st with last_tower_z := st.last_tower_z + layer.height,
                flipflop_infill := !st.flipflop_infill } := rfl

/-- The successor state of the raft call: `last_tower_z` is set to 0.2;
nothing else changes. -/
lemma raft_final_state (st : SwitchTower) (fl : Layer) (ex : Extruder)
    (r : Bool) (xy zs : ℚ) :
    (st.get_raft_lines fl ex r xy zs).2 = { st with last_tower_z := 0.2 } := rfl

/-- The switch generator never reads the incoming extruder's z-hop field, so
replacing it changes nothing in the emission or the successor state. -/
lemma tower_lines_ignore_new_e_z_hop (st : SwitchTower) (layer : Layer)
    (e_pos : ℚ) (old_e new_e : Extruder) (v : ℚ) (zh zs xys : ℚ) :
    st.get_tower_lines layer e_pos old_e { new_e with z_hop := v } zh zs xys =
      st.get_tower_lines layer e_pos old_e new_e zh zs xys := rfl

/-- Evaluation helper: a value at least the tolerance in magnitude is not
float-zero. -/
lemma is_float_zero_eq_false (v : ℚ) (d : ℕ)
    (h : v ≤ -(1 / 10 ^ d) ∨ 1 / 10 ^ d ≤ v) :
    utils.is_float_zero v d = false := by
  unfold utils.is_float_zero
  refine decide_eq_false (not_lt.mpr ?_)
  rcases h with h | h
  · calc (1 : ℚ) / 10 ^ d ≤ -v := by linarith
    _ ≤ |v| := neg_le_abs v
  · calc (1 : ℚ) / 10 ^ d ≤ v := h
    _ ≤ |v| := le_abs_self v

/-- Evaluation helper: a value within the tolerance is float-zero. -/
lemma is_float_zero_eq_true (v : ℚ) (d : ℕ)
    (h : -(1 / 10 ^ d) < v ∧ v < 1 / 10 ^ d) :
    utils.is_float_zero v d = true := by
  unfold utils.is_float_zero
  exact decide_eq_true (abs_lt.mpr h)

/-! ### Claims -/

/-- A concrete layer used by the claim witnesses. -/
def wLayer : Layer :=
  { height := 0.2
    z := 5
    outer_perimeter_speed := 600
    outer_perimeter_feed_rate := 2 }

/-- A concrete outgoing extruder used by the claim witnesses. -/
def wExtA : Extruder :=
  { tool := 0
    retract := 2
    retract_speed := 1800
    z_hop := 0.4
    wipe := 2
    feed_rate := 5 }

/-- A concrete incoming extruder used by the claim witnesses. -/
def wExtB : Extruder :=
  { tool := 1
    retract := 2
    retract_speed := 1800
    z_hop := 0.4
    wipe := 2
    feed_rate := 5 }

/-- Claim C4: for every input `min_speed`, `generate_purge_speeds(min_speed)`
returns an ordered list of length `purge_lines` in which every element equals
2400, regardless of the value of `min_speed`. -/
theorem generate_purge_speeds_all_2400 (st : SwitchTower) (min_speed : ℚ) :
    st.generate_purge_speeds min_speed =
      List.replicate st.purge_lines.toNat (2400 : ℚ) ∧
    (st.generate_purge_speeds min_speed).length = st.purge_lines.toNat ∧
    ∀ s ∈ st.generate_purge_speeds min_speed, s = (2400 : ℚ) := by
  refine ⟨generate_purge_speeds_eq st min_speed, ?_, ?_⟩
  · simp [generate_purge_speeds_eq]
  · intro s hs
    rw [generate_purge_speeds_eq] at hs
    exact List.eq_of_mem_replicate hs

/-- Claim C8: if the extruder defines a z-hop distance, the z-hop helper
computes `new_hop = last_tower_z + extruder.z_hop` and returns a lift command
iff `new_hop` differs from `layer.z + z_hop`; with no z-hop distance it
returns nothing. -/
theorem z_hop_helper_characterization (st : SwitchTower) (layer : Layer)
    (z_hop z_speed : ℚ) (ex : Extruder) :
    (ex.z_hop = 0 → st._get_z_hop layer z_hop z_speed ex = none) ∧
    (ex.z_hop ≠ 0 →
      ((st._get_z_hop layer z_hop z_speed ex ≠ none) ↔
        st.last_tower_z + ex.z_hop ≠ layer.z + z_hop) ∧
      (st.last_tower_z + ex.z_hop ≠ layer.z + z_hop →
        st._get_z_hop layer z_hop z_speed ex =
          some (.gline (.zMove (st.last_tower_z + ex.z_hop) z_speed)
            (some " z-hop")))) := by
  constructor
  · intro h
    simp [SwitchTower._get_z_hop, h]
  · intro h
    by_cases hne : st.last_tower_z + ex.z_hop ≠ layer.z + z_hop <;>
      simp [SwitchTower._get_z_hop, h, hne]

/-- Witness for C8: with the initial tower state (`last_tower_z = 0`), the
witness extruder's z-hop of 0.4 differs from `layer.z + 1 = 6`, so a lift to
0.4 is emitted. -/
theorem z_hop_helper_characterization_witness :
    (SwitchTower.init 0 1 PEEK)._get_z_hop wLayer 1 50 wExtA =
      some (.gline (.zMove ((SwitchTower.init 0 1 PEEK).last_tower_z +
        wExtA.z_hop) 50) (some " z-hop")) :=
  ((z_hop_helper_characterization (SwitchTower.init 0 1 PEEK) wLayer 1 50
    wExtA).2 (by norm_num [wExtA])).2 (by norm_num [wExtA, wLayer, SwitchTower.init])

/-- Claim C9 (implicit): the retraction clamp is one-sided - when
`retract + e_pos` is negative (and outside the zero tolerance, with a
non-negative configured retract length), the emitted E value is the plain
negation of the computed retraction, strictly positive (a filament advance),
with no clamping applied. -/
theorem retraction_negative_unclamped (e_pos : ℚ) (ex : Extruder)
    (hnz : utils.is_float_zero (ex.retract + e_pos) 3 = false)
    (hneg : ex.retract + e_pos < 0) (hr : 0 ≤ ex.retract) :
    SwitchTower._get_retraction e_pos ex =
      some (.gline (.eMove (-(ex.retract + e_pos)) ex.retract_speed)
        (some " tower retract")) ∧
    0 < -(ex.retract + e_pos) := by
  have hclamp : ¬ (ex.retract + e_pos > ex.retract) := by linarith
  constructor
  · simp [SwitchTower._get_retraction, hnz, hclamp]
  · linarith

/-- Witness for C9: retract 2, offset -5 gives computed retraction -3 and an
emitted `G1 E3.0` advance. -/
theorem retraction_negative_unclamped_witness :
    SwitchTower._get_retraction (-5) wExtA =
      some (.gline (.eMove (-(wExtA.retract + -5)) wExtA.retract_speed)
        (some " tower retract")) ∧
    (0 : ℚ) < -(wExtA.retract + -5) :=
  retraction_negative_unclamped (-5) wExtA
    (is_float_zero_eq_false _ _ (Or.inl (by norm_num [wExtA])))
    (by norm_num [wExtA]) (by norm_num [wExtA])

/-- Claim C3 (amended): the retraction helper computes
`retraction = configured_retract + e_pos`; within the zero tolerance it emits
nothing; otherwise it clamps the value from above to the configured retract
length (emitting `E = -(min retraction retract)` at the retract speed), which
for a positive computed retraction is a negative-feed command of magnitude at
most the configured retract length.  (A negative computed retraction is
emitted unclamped as a positive feed - see C9.) -/
theorem retraction_helper_amended (e_pos : ℚ) (ex : Extruder) :
    (utils.is_float_zero (ex.retract + e_pos) 3 = true →
      SwitchTower._get_retraction e_pos ex = none) ∧
    (utils.is_float_zero (ex.retract + e_pos) 3 = false →
      SwitchTower._get_retraction e_pos ex =
        some (.gline (.eMove (-(min (ex.retract + e_pos) ex.retract))
          ex.retract_speed) (some " tower retract"))) ∧
    (utils.is_float_zero (ex.retract + e_pos) 3 = false →
      0 < ex.retract + e_pos → 0 ≤ ex.retract →
      ∃ v, SwitchTower._get_retraction e_pos ex =
          some (.gline (.eMove v ex.retract_speed) (some " tower retract")) ∧
        v ≤ 0 ∧ |v| ≤ ex.retract) := by
  have hmin : (if ex.retract + e_pos > ex.retract then ex.retract
      else ex.retract + e_pos) = min (ex.retract + e_pos) ex.retract := by
    rcases le_or_lt (ex.retract + e_pos) ex.retract with h | h
    · rw [if_neg (not_lt.mpr h), min_eq_left h]
    · rw [if_pos h, min_eq_right h.le]
  refine ⟨?_, ?_, ?_⟩
  · intro h
    simp [SwitchTower._get_retraction, h]
  · intro h
    simp only [SwitchTower._get_retraction, h, if_true, hmin]
  · intro h hpos hr
    refine ⟨-(min (ex.retract + e_pos) ex.retract), ?_, ?_, ?_⟩
    · simp only [SwitchTower._get_retraction, h, if_true, hmin]
    · have : 0 ≤ min (ex.retract + e_pos) ex.retract :=
        le_min hpos.le hr
      linarith
    · have h0 : 0 ≤ min (ex.retract + e_pos) ex.retract :=
        le_min hpos.le hr
      rw [abs_of_nonpos (by linarith), neg_neg]
      exact min_le_right _ _

/-- Counterexample for C3 as stated: for a negative computed retraction the
emitted E value is positive and exceeds the configured retract length in
magnitude - the claimed "clamp the magnitude and emit a negative-feed
command" is false.  Concrete input: retract 2, offset -5 (computed
retraction -3) emits `G1 E3.0`, not a clamped negative feed. -/
theorem retraction_clamp_counterexample :
    ¬ (∀ (e_pos : ℚ) (ex : Extruder),
        utils.is_float_zero (ex.retract + e_pos) 3 = false →
        ∃ v f, SwitchTower._get_retraction e_pos ex =
            some (.gline (.eMove v f) (some " tower retract")) ∧
          v ≤ 0 ∧ |v| ≤ ex.retract) := by
  intro h
  obtain ⟨v, f, heq, hv, habs⟩ := h (-5) wExtA
    (is_float_zero_eq_false _ _ (Or.inl (by norm_num [wExtA])))
  have heval : SwitchTower._get_retraction (-5) wExtA =
      some (.gline (.eMove 3 1800) (some " tower retract")) := by
    have hnz : utils.is_float_zero (wExtA.retract + -5) 3 = false :=
      is_float_zero_eq_false _ _ (Or.inl (by norm_num [wExtA]))
    have hcl : ¬ (wExtA.retract + (-5 : ℚ) > wExtA.retract) := by
      norm_num [wExtA]
    simp only [SwitchTower._get_retraction, hnz, if_true, if_neg hcl]
    norm_num [wExtA]
  rw [heval] at heq
  have hv3 : v = 3 := by
    have := (Option.some.injEq _ _).mp heq.symm
    exact (by simpa using this : v = 3 ∧ f = 1800).1
  rw [hv3] at hv
  norm_num at hv

/-- Witness for C3 (amended): the spec's own vector - offset -2 against
retract 2 nets to zero and emits nothing; and offset -1 against retract 2
nets to 1, emitting a single `G1 E-1.0` at the retract speed. -/
theorem retraction_helper_amended_witness :
    SwitchTower._get_retraction (-2) wExtA = none ∧
    SwitchTower._get_retraction (-1) wExtA =
      some (.gline (.eMove (-(min (wExtA.retract + -1) wExtA.retract))
        wExtA.retract_speed) (some " tower retract")) :=
  ⟨(retraction_helper_amended (-2) wExtA).1
      (is_float_zero_eq_true _ _ (by norm_num [wExtA])),
    (retraction_helper_amended (-1) wExtA).2.1
      (is_float_zero_eq_false _ _ (Or.inr (by norm_num [wExtA])))⟩

/-- Claim C1: each fully consumed switch call emits exactly one tool-change
command and its net state delta is exactly `last_tower_z += layer.height` and
`flipflop_purge` inverted (everything else, `flipflop_infill` included, is
unchanged); each fully consumed infill call inverts exactly `flipflop_infill`
(plus the `last_tower_z` growth), leaving `flipflop_purge` unchanged.  The
table hypotheses state that the precomputed hardware tables contain no
tool-change line, which holds for every constructed state. -/
theorem switch_infill_net_effects (st : SwitchTower) (layer : Layer)
    (e_pos : ℚ) (old_e new_e ex : Extruder) (zh zs xys : ℚ)
    (h1 : (st.pre_switch_lines true).countP isToolChangeLine = 0)
    (h2 : (st.pre_switch_lines false).countP isToolChangeLine = 0)
    (h3 : st.post_switch_lines.countP isToolChangeLine = 0) :
    ((st.get_tower_lines layer e_pos old_e new_e zh zs xys).1).countP
      isToolChangeLine = 1 ∧
    (st.get_tower_lines layer e_pos old_e new_e zh zs xys).2 =
      { st with last_tower_z := st.last_tower_z + layer.height,
                flipflop_purge := !st.flipflop_purge } ∧
    ((st.get_tower_lines layer e_pos old_e new_e zh zs xys).2).flipflop_infill
      = st.flipflop_infill ∧
    (st.get_infill_lines layer e_pos ex zh zs xys).2 =
      { st with last_tower_z := st.last_tower_z + layer.height,
                flipflop_infill := !st.flipflop_infill } ∧
    ((st.get_infill_lines layer e_pos ex zh zs xys).2).flipflop_purge
      = st.flipflop_purge :=
  ⟨tower_toolchange_count st layer e_pos old_e new_e zh zs xys h1 h2 h3,
    tower_final_state st layer e_pos old_e new_e zh zs xys, rfl,
    infill_final_state st layer e_pos ex zh zs xys, rfl⟩

/-- Witness for C1: one switch call on the freshly constructed PEEK tower
emits exactly one tool change. -/
theorem switch_infill_net_effects_witness :
    (((SwitchTower.init 0 1 PEEK).get_tower_lines wLayer 0 wExtA wExtB
      1 50 100).1).countP isToolChangeLine = 1 :=
  (switch_infill_net_effects (SwitchTower.init 0 1 PEEK) wLayer 0 wExtA wExtB
    wExtA 1 50 100
    (by simp [SwitchTower.init, SwitchTower.init_pre_switch_gcode, PEEK, PTFE, E3DV6])
    (by simp [SwitchTower.init, SwitchTower.init_pre_switch_gcode, PEEK, PTFE, E3DV6])
    (by simp [SwitchTower.init, SwitchTower.init_post_switch_gcode, PEEK, PTFE, E3DV6])).1

/-- Claim C5: the raft generator unconditionally sets `last_tower_z` to 0.2;
every fully consumed switch or infill call increments it by exactly the
current layer's height; and over any raft-free call sequence with
non-negative layer heights `last_tower_z` is monotonically non-decreasing. -/
theorem last_tower_z_evolution :
    (∀ (st : SwitchTower) (fl : Layer) (ex : Extruder) (r : Bool) (xy zs : ℚ),
      ((st.get_raft_lines fl ex r xy zs).2).last_tower_z = 0.2) ∧
    (∀ (st : SwitchTower) (layer : Layer) (e_pos : ℚ) (oe ne : Extruder)
      (zh zs xys : ℚ),
      ((st.get_tower_lines layer e_pos oe ne zh zs xys).2).last_tower_z =
        st.last_tower_z + layer.height) ∧
    (∀ (st : SwitchTower) (layer : Layer) (e_pos : ℚ) (ex : Extruder)
      (zh zs xys : ℚ),
      ((st.get_infill_lines layer e_pos ex zh zs xys).2).last_tower_z =
        st.last_tower_z + layer.height) ∧
    (∀ (calls : List JobCall) (st : SwitchTower),
      (∀ c ∈ calls, c.isRaft = false ∧ 0 ≤ c.layerHeight) →
      st.last_tower_z ≤ (calls.foldl SwitchTower.apply_call st).last_tower_z) := by
  refine ⟨fun _ _ _ _ _ _ => rfl, fun _ _ _ _ _ _ _ _ => rfl,
    fun _ _ _ _ _ _ _ => rfl, ?_⟩
  intro calls
  induction calls with
  | nil => intro st _; exact le_refl _
  | cons c cs ih =>
      intro st h
      have hc := h c (List.mem_cons_self c cs)
      have hstep : st.last_tower_z ≤ (st.apply_call c).last_tower_z := by
        cases c with
        | raft fl e r xy z => exact absurd hc.1 (by simp [JobCall.isRaft])
        | switch l ep oe ne zh zs xys =>
            have hh : (0 : ℚ) ≤ l.height := by
              simpa [JobCall.layerHeight] using hc.2
            have : (st.apply_call (JobCall.switch l ep oe ne zh zs xys)).last_tower_z
                = st.last_tower_z + l.height := rfl
            rw [this]
            linarith
        | infill l ep e zh zs xys =>
            have hh : (0 : ℚ) ≤ l.height := by
              simpa [JobCall.layerHeight] using hc.2
            have : (st.apply_call (JobCall.infill l ep e zh zs xys)).last_tower_z
                = st.last_tower_z + l.height := rfl
            rw [this]
            linarith
      rw [List.foldl_cons]
      exact le_trans hstep
        (ih (st.apply_call c) (fun x hx => h x (List.mem_cons_of_mem c hx)))

/-- Witness for C5: after one infill call on the fresh PEEK tower the height
has not decreased. -/
theorem last_tower_z_evolution_witness :
    (SwitchTower.init 0 1 PEEK).last_tower_z ≤
      (([JobCall.infill wLayer 0 wExtA 1 50 100]).foldl SwitchTower.apply_call
        (SwitchTower.init 0 1 PEEK)).last_tower_z :=
  last_tower_z_evolution.2.2.2 [JobCall.infill wLayer 0 wExtA 1 50 100]
    (SwitchTower.init 0 1 PEEK)
    (by
      intro c hc
      rw [List.mem_singleton] at hc
      subst hc
      exact ⟨rfl, by norm_num [JobCall.layerHeight, wLayer]⟩)

/-- Claim C6: a hardware selector outside {PTFE, E3DV6, PEEK} yields empty
pre-switch purge tables (both flip states) and an empty post-switch prime
table, silently; the switch generator still runs and emits its single
tool-change command with no purge/prime table line. -/
theorem unknown_hw_config_silently_empty (x y : ℚ) (cfg : String)
    (h : cfg ∉ HW_CONFIGS) :
    (SwitchTower.init x y cfg).pre_switch_lines true = [] ∧
    (SwitchTower.init x y cfg).pre_switch_lines false = [] ∧
    (SwitchTower.init x y cfg).post_switch_lines = [] ∧
    ∀ (layer : Layer) (e_pos : ℚ) (oe ne : Extruder) (zh zs xys : ℚ),
      (((SwitchTower.init x y cfg).get_tower_lines layer e_pos oe ne zh zs
        xys).1).countP isToolChangeLine = 1 := by
  have h1 : ¬ (cfg = PTFE) := fun he => h (by simp [HW_CONFIGS, he])
  have h2 : ¬ (cfg = E3DV6) := fun he => h (by simp [HW_CONFIGS, he])
  have h3 : ¬ (cfg = PEEK) := fun he => h (by simp [HW_CONFIGS, he])
  have hpre : SwitchTower.init_pre_switch_gcode cfg 50 = ([], []) := by
    simp [SwitchTower.init_pre_switch_gcode, h1, h2, h3]
  have hpost : SwitchTower.init_post_switch_gcode cfg 50 = ([], 1) := by
    simp [SwitchTower.init_post_switch_gcode, h1, h2, h3]
  have ht : (SwitchTower.init x y cfg).pre_switch_lines true = [] := by
    simp [SwitchTower.init, hpre]
  have hf : (SwitchTower.init x y cfg).pre_switch_lines false = [] := by
    simp [SwitchTower.init, hpre]
  have hp : (SwitchTower.init x y cfg).post_switch_lines = [] := by
    simp [SwitchTower.init, hpost]
  refine ⟨ht, hf, hp, ?_⟩
  intro layer e_pos oe ne zh zs xys
  exact tower_toolchange_count _ layer e_pos oe ne zh zs xys
    (by rw [ht]; rfl) (by rw [hf]; rfl) (by rw [hp]; rfl)

/-- Witness for C6: the selector "UNKNOWN-HW" produces empty tables. -/
theorem unknown_hw_config_silently_empty_witness :
    (SwitchTower.init 0 1 "UNKNOWN-HW").pre_switch_lines true = [] ∧
    (SwitchTower.init 0 1 "UNKNOWN-HW").pre_switch_lines false = [] ∧
    (SwitchTower.init 0 1 "UNKNOWN-HW").post_switch_lines = [] :=
  ⟨(unknown_hw_config_silently_empty 0 1 "UNKNOWN-HW" (by decide)).1,
    (unknown_hw_config_silently_empty 0 1 "UNKNOWN-HW" (by decide)).2.1,
    (unknown_hw_config_silently_empty 0 1 "UNKNOWN-HW" (by decide)).2.2.1⟩

/-- Claim C2 (amended): the total number of post-switch " purge trail"
directional moves per fully consumed switch call is `2 * purge_lines + 1`
for PTFE/PEEK and `2 * purge_lines + 2` for E3DV6 (the speed loop emits two
trails per purge line, then one finishing trail, plus one extra for E3DV6).
The table hypotheses hold for every constructed state, whose pre-switch
trails are plain `xeMove` lines. -/
theorem post_switch_purge_trail_count (st : SwitchTower) (layer : Layer)
    (e_pos : ℚ) (old_e new_e : Extruder) (zh zs xys : ℚ)
    (h1 : (st.pre_switch_lines true).countP (isDirMoveComment " purge trail") = 0)
    (h2 : (st.pre_switch_lines false).countP (isDirMoveComment " purge trail") = 0)
    (h3 : st.post_switch_lines.countP (isDirMoveComment " purge trail") = 0) :
    ((st.get_tower_lines layer e_pos old_e new_e zh zs xys).1).countP
      (isDirMoveComment " purge trail") =
      2 * st.purge_lines.toNat + (if st.hw_config = E3DV6 then 2 else 1) :=
  tower_purgetrail_count st layer e_pos old_e new_e zh zs xys h1 h2 h3

/-- Counterexample for C2 as stated: for the PEEK configuration
(`purge_lines = 6`) a switch call emits 13 post-switch purge-trail moves,
not `purge_lines + 1 = 7`. -/
theorem purge_pass_count_counterexample :
    (((SwitchTower.init 0 1 PEEK).get_tower_lines wLayer 0 wExtA wExtB
      1 50 100).1).countP (isDirMoveComment " purge trail") = 13 ∧
    (SwitchTower.init 0 1 PEEK).purge_lines + 1 = 7 ∧
    (13 : ℕ) ≠ 7 := by
  have hpl : (SwitchTower.init 0 1 PEEK).purge_lines = 6 := by
    simp [SwitchTower.init, PEEK, E3DV6]
    norm_num [show |(14 : ℚ) / 2| = 7 from by norm_num [abs_of_nonneg]]
  refine ⟨?_, by rw [hpl]; norm_num, by norm_num⟩
  have hcount := tower_purgetrail_count (SwitchTower.init 0 1 PEEK) wLayer 0
    wExtA wExtB 1 50 100
    (by simp [SwitchTower.init, SwitchTower.init_pre_switch_gcode, PEEK, PTFE, E3DV6])
    (by simp [SwitchTower.init, SwitchTower.init_pre_switch_gcode, PEEK, PTFE, E3DV6])
    (by simp [SwitchTower.init, SwitchTower.init_post_switch_gcode, PEEK, PTFE, E3DV6])
  rw [hcount, hpl]
  decide

/-- Witness for C2 (amended): on the freshly constructed E3DV6 tower the
purge-trail count formula holds. -/
theorem post_switch_purge_trail_count_witness :
    (((SwitchTower.init 0 1 E3DV6).get_tower_lines wLayer 0 wExtA wExtB
      1 50 100).1).countP (isDirMoveComment " purge trail") =
      2 * (SwitchTower.init 0 1 E3DV6).purge_lines.toNat +
        (if (SwitchTower.init 0 1 E3DV6).hw_config = E3DV6 then 2 else 1) :=
  post_switch_purge_trail_count (SwitchTower.init 0 1 E3DV6) wLayer 0 wExtA
    wExtB 1 50 100
    (by simp [SwitchTower.init, SwitchTower.init_pre_switch_gcode, PEEK, PTFE, E3DV6])
    (by simp [SwitchTower.init, SwitchTower.init_pre_switch_gcode, PEEK, PTFE, E3DV6])
    (by simp [SwitchTower.init, SwitchTower.init_post_switch_gcode, PEEK, PTFE, E3DV6])

/-- Claim C10 (implicit): both z-hop evaluations of a switch call use the
outgoing extruder `old_e` - the emitted z-hop lines are exactly the optional
hop computed from `old_e` at the incoming `last_tower_z` followed by the
optional hop recomputed from `old_e` after the mid-call update - and the
incoming extruder's z-hop distance never influences the emission or the
successor state at all. -/
theorem tower_z_hop_uses_old_extruder (st : SwitchTower) (layer : Layer)
    (e_pos : ℚ) (old_e new_e : Extruder) (v zh zs xys : ℚ)
    (h1 : (st.pre_switch_lines true).countP isZHopLine = 0)
    (h2 : (st.pre_switch_lines false).countP isZHopLine = 0)
    (h3 : st.post_switch_lines.countP isZHopLine = 0) :
    st.get_tower_lines layer e_pos old_e { new_e with z_hop := v } zh zs xys =
      st.get_tower_lines layer e_pos old_e new_e zh zs xys ∧
    ((st.get_tower_lines layer e_pos old_e new_e zh zs xys).1).filter
      isZHopLine =
      (st._get_z_hop layer zh zs old_e).toList ++
      ({ st with last_tower_z := st.last_tower_z + layer.height }._get_z_hop
        layer zh zs old_e).toList :=
  ⟨tower_lines_ignore_new_e_z_hop st layer e_pos old_e new_e v zh zs xys,
    tower_zhop_lines st layer e_pos old_e new_e zh zs xys h1 h2 h3⟩

/-- Witness for C10: on the fresh PEEK tower the z-hop filter identity holds
at concrete inputs. -/
theorem tower_z_hop_uses_old_extruder_witness :
    (((SwitchTower.init 0 1 PEEK).get_tower_lines wLayer 0 wExtA wExtB
      1 50 100).1).filter isZHopLine =
      ((SwitchTower.init 0 1 PEEK)._get_z_hop wLayer 1 50 wExtA).toList ++
      ({ SwitchTower.init 0 1 PEEK with
          last_tower_z := (SwitchTower.init 0 1 PEEK).last_tower_z +
            wLayer.height }._get_z_hop wLayer 1 50 wExtA).toList :=
  (tower_z_hop_uses_old_extruder (SwitchTower.init 0 1 PEEK) wLayer 0 wExtA
    wExtB 0.7 1 50 100
    (by simp [SwitchTower.init, SwitchTower.init_pre_switch_gcode, PEEK, PTFE, E3DV6])
    (by simp [SwitchTower.init, SwitchTower.init_pre_switch_gcode, PEEK, PTFE, E3DV6])
    (by simp [SwitchTower.init, SwitchTower.init_post_switch_gcode, PEEK, PTFE, E3DV6])).2

/-- Claim C7: every infill call emits a zig-zag fill of exactly six passes -
four passes with speeds ramping linearly down from 2400 in equal steps of
`(2400 - min_speed) / 4`, then two passes at `min_speed`; the travel angle
alternates each pass between the diagonal `degrees(atan((wall_height - 0.3) /
(wall_width / 6)))` and its 360-degree complement, and only the final pass is
flagged path-closing. -/
theorem infill_zigzag_passes (st : SwitchTower) (layer : Layer) (e_pos : ℚ)
    (ex : Extruder) (zh zs xys : ℚ) :
    ((st.get_infill_lines layer e_pos ex zh zs xys).1).filter
      (isDirMoveComment " infill") =
      (let min_speed := layer.outer_perimeter_speed
       let fr := layer.outer_perimeter_feed_rate
       let step := (2400 - min_speed) / 4
       let A : FVal := .atanDeg (st.wall_height - 0.3) (st.wall_width / 6)
       let B : FVal := .revMinus A
       let P : FVal := .dist (st.wall_width / 6) (st.wall_height - 0.3)
       [ Line.gline (.dirMove (if st.flipflop_infill then A else B) P 2400
           (some ex.tool) (some fr) false) (some " infill"),
         Line.gline (.dirMove (if st.flipflop_infill then B else A) P
           (2400 - step) (some ex.tool) (some fr) false) (some " infill"),
         Line.gline (.dirMove (if st.flipflop_infill then A else B) P
           (2400 - 2 * step) (some ex.tool) (some fr) false) (some " infill"),
         Line.gline (.dirMove (if st.flipflop_infill then B else A) P
           (2400 - 3 * step) (some ex.tool) (some fr) false) (some " infill"),
         Line.gline (.dirMove (if st.flipflop_infill then A else B) P
           min_speed (some ex.tool) (some fr) false) (some " infill"),
         Line.gline (.dirMove (if st.flipflop_infill then B else A) P
           min_speed (some ex.tool) (some fr) true) (some " infill") ]) := by
  have hr4 : List.range 4 = [0, 1, 2, 3] := rfl
  cases hfi : st.flipflop_infill <;>
    simp [SwitchTower.get_infill_lines, hfi, hr4, SwitchTower.infill_zigzag,
      filter_eq_nil_of_countP _ _ (countP_retraction_eq_zero
        (isDirMoveComment " infill") (fun _ _ _ => rfl) e_pos ex),
      (fun s l z1 z2 e2 => filter_eq_nil_of_countP _ _ (countP_z_hop_eq_zero
        (isDirMoveComment " infill") (fun _ _ _ => rfl) s l z1 z2 e2)),
      (fun s fl e2 ws fr2 => filter_eq_nil_of_countP _ _ (countP_wall_eq_zero
        (isDirMoveComment " infill") (fun _ _ _ _ _ _ => rfl) s fl e2 ws fr2)),
      Extruder.get_prime_gcode, Extruder.get_retract_gcode,
      Layer.get_outer_perimeter_rates,
      gcode.gen_direction_move, gcode.gen_head_move,
      gcode.calculate_path_length, List.filter_append, List.filter_cons,
      apply_ite (List.filter (isDirMoveComment " infill"))]
